import Mathlib

/-!
Verification development for the PaperMapGenerator repository.

The definitions below are a shallow embedding of the tiling/pagination
algorithm and the batch orchestration logic of the repository:

- the client grid utilities (PAPER_SIZES, calculateGridLayout,
  getPageCoordinates, generateCropArea);
- the server PDF generation geometry (paper table, page loop, crop
  rectangles, backside numbering pages, assembly guide) from routes.ts;
- the in-memory storage update semantics (object spread) and the
  HTTP route handlers for calibration, single-item PDF generation,
  batch creation and batch processing.

JavaScript numbers are modelled as rationals, image dimensions and
pixel coordinates as integers, and floors are explicit.
-/

/-! ## Paper size tables -/

structure PaperSize where
  width : Int
  height : Int
  name : String
deriving DecidableEq

/-- The client-side PAPER_SIZES record (grid utilities file).
Note that it contains six formats only: a1 and a0 are absent. -/
def PAPER_SIZES : String → Option PaperSize := fun n =>
  if n = "a4" then some ⟨595, 842, "A4"⟩
  else if n = "a3" then some ⟨842, 1191, "A3"⟩
  else if n = "a2" then some ⟨1191, 1684, "A2"⟩
  else if n = "letter" then some ⟨612, 792, "Letter"⟩
  else if n = "legal" then some ⟨612, 1008, "Legal"⟩
  else if n = "tabloid" then some ⟨792, 1224, "Tabloid"⟩
  else none

/-- Resolution PAPER_SIZES[paperSize] with the a4 fallback for names
absent from the record. -/
def resolvePaper (n : String) : PaperSize :=
  (PAPER_SIZES n).getD ⟨595, 842, "A4"⟩

/-- The server-side paperSizes record inside generatePDF (routes.ts),
which has all eight formats including a1 and a0. -/
def paperSizesServer : String → Option (Int × Int) := fun n =>
  if n = "a4" then some (595, 842)
  else if n = "a3" then some (842, 1191)
  else if n = "a2" then some (1191, 1684)
  else if n = "a1" then some (1684, 2384)
  else if n = "a0" then some (2384, 3370)
  else if n = "letter" then some (612, 792)
  else if n = "legal" then some (612, 1008)
  else if n = "tabloid" then some (792, 1224)
  else none

/-- Resolution paperSizes[settings.paperSize] || paperSizes.a4 in
generatePDF. -/
def resolvePaperServer (n : String) : Int × Int :=
  (paperSizesServer n).getD (595, 842)

/-! ## Grid layout calculator (client utilities) -/

structure GridCalculation where
  pagesX : Int
  pagesY : Int
  totalPages : Int
  pageSize : PaperSize
  scaledWidth : ℚ
  scaledHeight : ℚ
deriving DecidableEq

/-- The calculateGridLayout function: resolves the paper format
(with a4 fallback), scales the image dimensions and takes ceilings.
No input validation is performed by the source. -/
def calculateGridLayout (imageWidth imageHeight : Int) (scale : ℚ)
    (paperSize : String) : GridCalculation :=
  let paper := resolvePaper paperSize
  let scaledWidth : ℚ := (imageWidth : ℚ) * scale
  let scaledHeight : ℚ := (imageHeight : ℚ) * scale
  let pagesX : Int := ⌈scaledWidth / (paper.width : ℚ)⌉
  let pagesY : Int := ⌈scaledHeight / (paper.height : ℚ)⌉
  { pagesX := pagesX
    pagesY := pagesY
    totalPages := pagesX * pagesY
    pageSize := paper
    scaledWidth := scaledWidth
    scaledHeight := scaledHeight }

inductive GridError where
  | invalidDimension
deriving DecidableEq

/-- Specification-side variant of the grid calculator, written from the
spec text "Fails with InvalidDimensionError if W ≤ 0, H ≤ 0, or s ≤ 0";
it exists only to be compared with calculateGridLayout, which performs
no such check. -/
def calculateGridLayoutSpec (imageWidth imageHeight : Int) (scale : ℚ)
    (paperSize : String) : Except GridError GridCalculation :=
  if imageWidth ≤ 0 ∨ imageHeight ≤ 0 ∨ scale ≤ 0 then
    Except.error GridError.invalidDimension
  else
    Except.ok (calculateGridLayout imageWidth imageHeight scale paperSize)

structure PageCoords where
  pageX : Int
  pageY : Int
  x : ℚ
  y : ℚ
deriving DecidableEq

/-- The getPageCoordinates function: pageIndex % pagesX uses the
JavaScript remainder (sign of the dividend, Int.tmod) and
Math.floor(pageIndex / pagesX) is a real division followed by floor. -/
def getPageCoordinates (pageIndex : Int) (grid : GridCalculation) :
    PageCoords :=
  let pageX := Int.tmod pageIndex grid.pagesX
  let pageY := ⌊(pageIndex : ℚ) / (grid.pagesX : ℚ)⌋
  { pageX := pageX
    pageY := pageY
    x := (pageX : ℚ) * (grid.pageSize.width : ℚ)
    y := (pageY : ℚ) * (grid.pageSize.height : ℚ) }

structure CropArea where
  left : Int
  top : Int
  width : Int
  height : Int
deriving DecidableEq

/-- The crop rectangle computed inside the generatePDF page loop of
routes.ts for the tile at page coordinates (x, y): exact rational
values, then Math.floor on all four before the sharp extract call. -/
def cropRect (x y : Int) (paperW paperH : Int) (scale : ℚ)
    (width height : Int) : CropArea :=
  let cropX : ℚ := ((x : ℚ) * (paperW : ℚ)) / scale
  let cropY : ℚ := ((y : ℚ) * (paperH : ℚ)) / scale
  let cropWidth : ℚ := min ((paperW : ℚ) / scale) ((width : ℚ) - cropX)
  let cropHeight : ℚ := min ((paperH : ℚ) / scale) ((height : ℚ) - cropY)
  { left := ⌊cropX⌋
    top := ⌊cropY⌋
    width := ⌊cropWidth⌋
    height := ⌊cropHeight⌋ }

/-- The generateCropArea function of the client grid utilities, driven
by a linear page index instead of two coordinates. -/
def generateCropArea (pageIndex : Int) (grid : GridCalculation)
    (originalWidth originalHeight : Int) (scale : ℚ) : CropArea :=
  let pc := getPageCoordinates pageIndex grid
  let cropX : ℚ := pc.x / scale
  let cropY : ℚ := pc.y / scale
  let cropWidth : ℚ :=
    min ((grid.pageSize.width : ℚ) / scale) ((originalWidth : ℚ) - cropX)
  let cropHeight : ℚ :=
    min ((grid.pageSize.height : ℚ) / scale) ((originalHeight : ℚ) - cropY)
  { left := ⌊cropX⌋
    top := ⌊cropY⌋
    width := ⌊cropWidth⌋
    height := ⌊cropHeight⌋ }

/-- Membership of an integer pixel in a crop rectangle. -/
def inCrop (c : CropArea) (px py : Int) : Prop :=
  c.left ≤ px ∧ px < c.left + c.width ∧ c.top ≤ py ∧ py < c.top + c.height

instance (c : CropArea) (px py : Int) : Decidable (inCrop c px py) := by
  unfold inCrop; infer_instance

/-- Decidable check that some tile of the grid for the given inputs
contains the pixel (px, py) after flooring. -/
def coveredPixel (W H : Int) (s : ℚ) (paper : String) (px py : Int) :
    Bool :=
  let g := calculateGridLayout W H s paper
  (List.range g.pagesX.toNat).any fun xn =>
    (List.range g.pagesY.toNat).any fun yn =>
      decide (inCrop
        (cropRect (xn : Int) (yn : Int) g.pageSize.width g.pageSize.height
          s W H) px py)

/-- Containment part of the tiling property: every floored crop
rectangle of the grid lies fully inside the image bounds. -/
def cropContainment (W H : Int) (s : ℚ) (paper : String) : Prop :=
  ∀ x y : Int,
    0 ≤ x → x < (calculateGridLayout W H s paper).pagesX →
    0 ≤ y → y < (calculateGridLayout W H s paper).pagesY →
    let g := calculateGridLayout W H s paper
    let c := cropRect x y g.pageSize.width g.pageSize.height s W H
    0 ≤ c.left ∧ 0 ≤ c.top ∧ 0 ≤ c.width ∧ 0 ≤ c.height ∧
      c.left + c.width ≤ W ∧ c.top + c.height ≤ H

/-- Agreement of the client tile extractor with the server crop
computation at the coordinates it derives from the page index. -/
def cropAgreement (W H : Int) (s : ℚ) (paper : String) : Prop :=
  ∀ idx : Int,
    let g := calculateGridLayout W H s paper
    generateCropArea idx g W H s =
      cropRect (getPageCoordinates idx g).pageX
        (getPageCoordinates idx g).pageY
        g.pageSize.width g.pageSize.height s W H

/-- Coverage part of the tiling property: every pixel of the image is
inside some floored tile rectangle of the grid. -/
def cropCoverage (W H : Int) (s : ℚ) (paper : String) : Prop :=
  ∀ px py : Int, 0 ≤ px → px < W → 0 ≤ py → py < H →
    ∃ x y : Int,
      0 ≤ x ∧ x < (calculateGridLayout W H s paper).pagesX ∧
      0 ≤ y ∧ y < (calculateGridLayout W H s paper).pagesY ∧
      inCrop
        (cropRect x y (calculateGridLayout W H s paper).pageSize.width
          (calculateGridLayout W H s paper).pageSize.height s W H) px py

/-! ## Data model: settings, projects, batch jobs -/

structure MapSettings where
  gridStyle : String
  unitOfMeasurement : String
  paperSize : String
  gridOverlay : Bool
  backgroundColor : String
  averageBackgroundColor : Bool
  gridMarkerColor : String
  guideColor : String
  generateBacksideNumbers : Bool
  outlineStyle : String
  outlineThickness : Int
  outlineColor : String
deriving DecidableEq

structure MapProject where
  id : String
  fileName : String
  originalImageUrl : String
  imageWidth : Int
  imageHeight : Int
  settings : MapSettings
  scale : ℚ
  offsetX : ℚ
  offsetY : ℚ
  rotation : ℚ
  status : String
  pdfUrl : Option String
  createdAt : String
deriving DecidableEq

/-- A partial update object handed to MemStorage.updateMapProject; a
field that the caller did not mention is none, a mentioned field
overwrites (JavaScript object spread semantics). -/
structure ProjectUpdates where
  fileName : Option String := none
  originalImageUrl : Option String := none
  imageWidth : Option Int := none
  imageHeight : Option Int := none
  settings : Option MapSettings := none
  scale : Option ℚ := none
  offsetX : Option ℚ := none
  offsetY : Option ℚ := none
  rotation : Option ℚ := none
  status : Option String := none
  pdfUrl : Option (Option String) := none
  createdAt : Option String := none

/-- The spread { ...existing, ...updates } of MemStorage.updateMapProject. -/
def applyUpdates (p : MapProject) (u : ProjectUpdates) : MapProject :=
  { id := p.id
    fileName := u.fileName.getD p.fileName
    originalImageUrl := u.originalImageUrl.getD p.originalImageUrl
    imageWidth := u.imageWidth.getD p.imageWidth
    imageHeight := u.imageHeight.getD p.imageHeight
    settings := u.settings.getD p.settings
    scale := u.scale.getD p.scale
    offsetX := u.offsetX.getD p.offsetX
    offsetY := u.offsetY.getD p.offsetY
    rotation := u.rotation.getD p.rotation
    status := u.status.getD p.status
    pdfUrl := u.pdfUrl.getD p.pdfUrl
    createdAt := u.createdAt.getD p.createdAt }

/-- The in-memory project store, keyed by project id. -/
def ProjectStore : Type := String → Option MapProject

def setProject (st : ProjectStore) (pid : String) (p : MapProject) :
    ProjectStore :=
  fun k => if k = pid then some p else st k

/-- MemStorage.updateMapProject: returns undefined and leaves the map
untouched when the id is absent, otherwise stores and returns the
spread of the existing project with the updates. -/
def updateMapProject (st : ProjectStore) (pid : String)
    (u : ProjectUpdates) : Option MapProject × ProjectStore :=
  match st pid with
  | none => (none, st)
  | some existing =>
      let updated := applyUpdates existing u
      (some updated, setProject st pid updated)

/-- The PATCH calibration route: after the four typeof number checks it
updates scale, offsetX, offsetY, rotation and sets status to
calibrated, with no precondition on the current status. -/
def calibrationRoute (st : ProjectStore) (pid : String)
    (scale offsetX offsetY rotation : ℚ) :
    Option MapProject × ProjectStore :=
  updateMapProject st pid
    { scale := some scale
      offsetX := some offsetX
      offsetY := some offsetY
      rotation := some rotation
      status := some "calibrated" }

inductive GenerateOutcome where
  | notFound
  | notCalibrated
  | success (pdfPath : String)
  | failure
deriving DecidableEq

/-- The POST generate-pdf route for a single project. The generation
itself (tiling, cropping, encoding) is abstracted by genResult: some
path on success, none when any crop/encode step throws. On the error
path the handler resets the status to calibrated and touches nothing
else; on success it stores the pdf path and the completed status. -/
def generatePdfRoute (st : ProjectStore) (pid : String)
    (genResult : Option String) : GenerateOutcome × ProjectStore :=
  match st pid with
  | none => (GenerateOutcome.notFound, st)
  | some project =>
      if project.status ≠ "calibrated" then
        (GenerateOutcome.notCalibrated, st)
      else
        let st1 := (updateMapProject st pid { status := some "processing" }).2
        match genResult with
        | some pdfPath =>
            (GenerateOutcome.success pdfPath,
              (updateMapProject st1 pid
                { pdfUrl := some (some pdfPath),
                  status := some "completed" }).2)
        | none =>
            (GenerateOutcome.failure,
              (updateMapProject st1 pid { status := some "calibrated" }).2)

/-! ## Batch jobs -/

structure BatchJob where
  id : String
  name : String
  totalFiles : Nat
  processedFiles : Nat
  failedFiles : Nat
  projectIds : List String
  status : String
  completedAt : Option String
  errorMessage : Option String
deriving DecidableEq

/-- Batch job creation in the POST batch route: totalFiles is the
number of member project ids, counters start at zero, status pending. -/
def createBatchJobRoute (name : String) (projectIds : List String)
    (jobId : String) : BatchJob :=
  { id := jobId
    name := name
    totalFiles := projectIds.length
    processedFiles := 0
    failedFiles := 0
    projectIds := projectIds
    status := "pending"
    completedAt := none
    errorMessage := none }

structure BatchRunResult where
  store : ProjectStore
  processedCount : Nat
  failedCount : Nat
  counterLog : List (Nat × Nat)

/-- The member loop of processBatchJob. For each project id: a missing
project only increments failedCount (without persisting the counters);
otherwise the project is set to processing, generatePDF runs (outcome
abstracted by gen), the project is updated to completed with its pdf
path or reset to uploaded, and the job counters are persisted.
counterLog records each persisted (processedFiles, failedFiles) pair in
order, the observable mid-run states of the job. -/
def processBatchLoop (gen : String → Option String) :
    ProjectStore → List String → Nat → Nat → BatchRunResult
  | st, [], p, f => ⟨st, p, f, []⟩
  | st, pid :: rest, p, f =>
      match st pid with
      | none =>
          let r := processBatchLoop gen st rest p (f + 1)
          ⟨r.store, r.processedCount, r.failedCount, r.counterLog⟩
      | some _ =>
          let st1 := (updateMapProject st pid { status := some "processing" }).2
          match gen pid with
          | some pdfPath =>
              let st2 := (updateMapProject st1 pid
                { pdfUrl := some (some pdfPath),
                  status := some "completed" }).2
              let r := processBatchLoop gen st2 rest (p + 1) f
              ⟨r.store, r.processedCount, r.failedCount,
                (p + 1, f) :: r.counterLog⟩
          | none =>
              let st2 := (updateMapProject st1 pid
                { status := some "uploaded" }).2
              let r := processBatchLoop gen st2 rest p (f + 1)
              ⟨r.store, r.processedCount, r.failedCount,
                (p, f + 1) :: r.counterLog⟩

/-- The terminal update of processBatchJob after the member loop. -/
def finishBatch (job : BatchJob) (p f : Nat) (now : String) : BatchJob :=
  { job with
      status := if p > 0 then "completed" else "failed"
      processedFiles := p
      failedFiles := f
      completedAt := some now
      errorMessage :=
        if f = job.totalFiles then some "All files failed to process"
        else none }

/-- Full run of processBatchJob: the member loop followed by the
terminal job update. -/
def runBatchJob (gen : String → Option String) (st : ProjectStore)
    (job : BatchJob) (now : String) : BatchRunResult × BatchJob :=
  let r := processBatchLoop gen st job.projectIds 0 0
  (r, finishBatch job r.processedCount r.failedCount now)

/-! ## Document assembler (the generatePDF page loop of routes.ts) -/

inductive PdfPage where
  | mapPage (x y : Nat)
  | backsidePage (num : Nat)
  | guidePage (cells : List (Nat × Nat × Nat))
deriving DecidableEq

/-- The pages emitted for one tile of the loop: the map page for
coordinates (x, y), followed by one backside numbering page carrying
pageNumber = y * pagesX + x + 1 exactly when generateBacksideNumbers
is on and the tile is not the last one of the grid. -/
def tileCell (pagesX pagesY : Nat) (backside : Bool) (y x : Nat) :
    List PdfPage :=
  PdfPage.mapPage x y ::
    (if backside ∧ (x < pagesX - 1 ∨ y < pagesY - 1) then
      [PdfPage.backsidePage (y * pagesX + x + 1)]
    else [])

/-- One iteration of the outer y loop: all tiles of row y in x order. -/
def tileRow (pagesX pagesY : Nat) (backside : Bool) (y : Nat) :
    List PdfPage :=
  (List.range pagesX).flatMap (tileCell pagesX pagesY backside y)

/-- All map pages and backside pages, rows in y order. -/
def tilePages (pagesX pagesY : Nat) (backside : Bool) : List PdfPage :=
  (List.range pagesY).flatMap (tileRow pagesX pagesY backside)

/-- The labeled cells of the assembly guide page, produced by the same
row-major double loop with pageNum = y * pagesX + x + 1. -/
def guideCells (pagesX pagesY : Nat) : List (Nat × Nat × Nat) :=
  (List.range pagesY).flatMap fun y =>
    (List.range pagesX).map fun x => (x, y, y * pagesX + x + 1)

/-- The whole document: the tile pages of the double loop followed by
exactly one assembly guide page. -/
def assembleDocument (pagesX pagesY : Nat) (backside : Bool) :
    List PdfPage :=
  tilePages pagesX pagesY backside ++
    [PdfPage.guidePage (guideCells pagesX pagesY)]

def isBacksidePage : PdfPage → Bool
  | PdfPage.backsidePage _ => true
  | _ => false

/-- Row-major enumeration of the grid coordinates, the order in which
the page loop visits tiles. -/
def gridCoords (pagesX pagesY : Nat) : List (Nat × Nat) :=
  (List.range pagesY).flatMap fun y =>
    (List.range pagesX).map fun x => (x, y)

/-- The grid coordinates carried by a map page, none for other pages. -/
def pageCoordOf : PdfPage → Option (Nat × Nat)
  | PdfPage.mapPage x y => some (x, y)
  | _ => none

/-- The coordinates of the map pages of a page list, in order. -/
def mapPageCoords (l : List PdfPage) : List (Nat × Nat) :=
  l.filterMap pageCoordOf

/-- The page number the loop associates with tile (x, y). -/
def tilePageNumber (pagesX x y : Nat) : Nat := y * pagesX + x + 1

/-! ## Concrete fixtures used by witnesses and counterexamples -/

/-- Default settings parsed by mapSettingsSchema.parse of an empty
object. -/
def demoSettings : MapSettings :=
  { gridStyle := "square"
    unitOfMeasurement := "imperial"
    paperSize := "a4"
    gridOverlay := false
    backgroundColor := "#ffffff"
    averageBackgroundColor := false
    gridMarkerColor := "#ffffff"
    guideColor := "#ffffff"
    generateBacksideNumbers := true
    outlineStyle := "dash"
    outlineThickness := 3
    outlineColor := "#ffffff" }

/-- A project sitting in status processing, with a previously generated
pdf still referenced. -/
def demoProject : MapProject :=
  { id := "p1"
    fileName := "map.png"
    originalImageUrl := "data:image/png;base64,xxxx"
    imageWidth := 1600
    imageHeight := 1200
    settings := demoSettings
    scale := 1
    offsetX := 0
    offsetY := 0
    rotation := 0
    status := "processing"
    pdfUrl := some "uploads/pdf_p1.pdf"
    createdAt := "2024-01-01" }

def demoStore : ProjectStore :=
  fun k => if k = "p1" then some demoProject else none

/-- A calibrated project that kept the pdf reference of an earlier
successful generation (reachable: completed, then recalibrated). -/
def calProject : MapProject :=
  { id := "p2"
    fileName := "m.png"
    originalImageUrl := "data:image/png;base64,yyyy"
    imageWidth := 1600
    imageHeight := 1200
    settings := demoSettings
    scale := 1
    offsetX := 0
    offsetY := 0
    rotation := 0
    status := "calibrated"
    pdfUrl := some "uploads/pdf_old.pdf"
    createdAt := "2024-01-01" }

def calStore : ProjectStore :=
  fun k => if k = "p2" then some calProject else none

/-! ## Helper lemmas -/

theorem calculateGridLayout_pagesX (W H : Int) (s : ℚ) (paper : String) :
    (calculateGridLayout W H s paper).pagesX =
      ⌈(W : ℚ) * s / ((resolvePaper paper).width : ℚ)⌉ := rfl

theorem calculateGridLayout_pagesY (W H : Int) (s : ℚ) (paper : String) :
    (calculateGridLayout W H s paper).pagesY =
      ⌈(H : ℚ) * s / ((resolvePaper paper).height : ℚ)⌉ := rfl

theorem calculateGridLayout_totalPages (W H : Int) (s : ℚ) (paper : String) :
    (calculateGridLayout W H s paper).totalPages =
      (calculateGridLayout W H s paper).pagesX *
        (calculateGridLayout W H s paper).pagesY := rfl

theorem calculateGridLayout_pageSize (W H : Int) (s : ℚ) (paper : String) :
    (calculateGridLayout W H s paper).pageSize = resolvePaper paper := rfl

theorem resolvePaper_pos (n : String) :
    0 < (resolvePaper n).width ∧ 0 < (resolvePaper n).height := by
  unfold resolvePaper PAPER_SIZES
  split_ifs <;> decide

/-! ## C5: paper size tables -/

/-- Claim C5 counterexample: the client grid-utilities PAPER_SIZES
record has no a1 or a0 entry, so those two names resolve to the a4
dimensions 595 x 842 instead of 1684 x 2384 and 2384 x 3370. -/
theorem paper_tables_resolution_cex :
    resolvePaper "a1" = ⟨595, 842, "A4"⟩ ∧
    resolvePaper "a0" = ⟨595, 842, "A4"⟩ ∧
    (resolvePaper "a1").width ≠ 1684 ∧
    (resolvePaper "a0").width ≠ 2384 := by decide

/-- Claim C5 (amended): the server paperSizes table of generatePDF
resolves all eight names to the claimed dimensions and defaults every
unknown name to a4; the client PAPER_SIZES table resolves its six
entries as claimed, but lacks a1 and a0, which therefore resolve to the
a4 dimensions through the same unknown-name fallback. -/
theorem paper_tables_resolution :
    (resolvePaperServer "a4" = (595, 842) ∧
     resolvePaperServer "a3" = (842, 1191) ∧
     resolvePaperServer "a2" = (1191, 1684) ∧
     resolvePaperServer "a1" = (1684, 2384) ∧
     resolvePaperServer "a0" = (2384, 3370) ∧
     resolvePaperServer "letter" = (612, 792) ∧
     resolvePaperServer "legal" = (612, 1008) ∧
     resolvePaperServer "tabloid" = (792, 1224)) ∧
    (∀ n : String, paperSizesServer n = none →
      resolvePaperServer n = (595, 842)) ∧
    (resolvePaper "a4" = ⟨595, 842, "A4"⟩ ∧
     resolvePaper "a3" = ⟨842, 1191, "A3"⟩ ∧
     resolvePaper "a2" = ⟨1191, 1684, "A2"⟩ ∧
     resolvePaper "letter" = ⟨612, 792, "Letter"⟩ ∧
     resolvePaper "legal" = ⟨612, 1008, "Legal"⟩ ∧
     resolvePaper "tabloid" = ⟨792, 1224, "Tabloid"⟩) ∧
    (resolvePaper "a1" = ⟨595, 842, "A4"⟩ ∧
     resolvePaper "a0" = ⟨595, 842, "A4"⟩) ∧
    (∀ n : String, PAPER_SIZES n = none →
      resolvePaper n = ⟨595, 842, "A4"⟩) := by
  refine ⟨by decide, ?_, by decide, by decide, ?_⟩
  · intro n h
    unfold resolvePaperServer
    rw [h]
    rfl
  · intro n h
    unfold resolvePaper
    rw [h]
    rfl

/-- Witness for C5 at the unknown name b5, which both tables default
to a4. -/
theorem paper_tables_resolution_w :
    paperSizesServer "b5" = none ∧ resolvePaperServer "b5" = (595, 842) ∧
    PAPER_SIZES "b5" = none ∧ resolvePaper "b5" = ⟨595, 842, "A4"⟩ :=
  ⟨by decide, paper_tables_resolution.2.1 "b5" (by decide),
   by decide, paper_tables_resolution.2.2.2.2 "b5" (by decide)⟩

/-! ## C2: no dimension validation -/

/-- Claim C2 counterexample: at W = 0 (with H = 100, s = 1) the spec
demands an InvalidDimensionError, but calculateGridLayout performs no
check and returns a degenerate grid geometry with pagesX = 0. -/
theorem grid_layout_no_validation_cex :
    calculateGridLayoutSpec 0 100 1 "a4" =
      Except.error GridError.invalidDimension ∧
    calculateGridLayout 0 100 1 "a4" =
      { pagesX := 0, pagesY := 1, totalPages := 0,
        pageSize := ⟨595, 842, "A4"⟩,
        scaledWidth := 0, scaledHeight := 100 } := by
  constructor
  · simp [calculateGridLayoutSpec]
  · have h1 : (calculateGridLayout 0 100 1 "a4").pagesX = 0 := by
      rw [calculateGridLayout_pagesX]
      have : resolvePaper "a4" = ⟨595, 842, "A4"⟩ := by decide
      rw [this]
      push_cast
      rw [Int.ceil_eq_iff]
      norm_num
    have h2 : (calculateGridLayout 0 100 1 "a4").pagesY = 1 := by
      rw [calculateGridLayout_pagesY]
      have : resolvePaper "a4" = ⟨595, 842, "A4"⟩ := by decide
      rw [this]
      push_cast
      rw [Int.ceil_eq_iff]
      norm_num
    have h3 := calculateGridLayout_totalPages 0 100 1 "a4"
    have h4 := calculateGridLayout_pageSize 0 100 1 "a4"
    have h5 : (calculateGridLayout 0 100 1 "a4").scaledWidth = 0 := by
      show ((0 : Int) : ℚ) * 1 = 0
      norm_num
    have h6 : (calculateGridLayout 0 100 1 "a4").scaledHeight = 100 := by
      show ((100 : Int) : ℚ) * 1 = 100
      norm_num
    cases hg : calculateGridLayout 0 100 1 "a4"
    simp_all
    decide

/-- Claim C2 (amended): the Grid Layout Calculator performs no input
validation and never fails; no InvalidDimensionError exists in the
code. For W ≤ 0, H ≤ 0 or s ≤ 0 it still returns a grid geometry
computed by the same ceiling formulas, which is degenerate: the
corresponding page count is ≤ 0 instead of the contracted ≥ 1. -/
theorem grid_layout_no_validation (W H : Int) (s : ℚ) (paper : String) :
    (W ≤ 0 → 0 < s → (calculateGridLayout W H s paper).pagesX ≤ 0) ∧
    (H ≤ 0 → 0 < s → (calculateGridLayout W H s paper).pagesY ≤ 0) ∧
    (s ≤ 0 → 0 ≤ W → (calculateGridLayout W H s paper).pagesX ≤ 0) ∧
    calculateGridLayoutSpec W H s paper =
      (if W ≤ 0 ∨ H ≤ 0 ∨ s ≤ 0 then
        Except.error GridError.invalidDimension
      else Except.ok (calculateGridLayout W H s paper)) := by
  have hw := (resolvePaper_pos paper).1
  have hh := (resolvePaper_pos paper).2
  have hwq : (0 : ℚ) < ((resolvePaper paper).width : ℚ) := by exact_mod_cast hw
  have hhq : (0 : ℚ) < ((resolvePaper paper).height : ℚ) := by exact_mod_cast hh
  refine ⟨?_, ?_, ?_, rfl⟩
  · intro hW hs
    rw [calculateGridLayout_pagesX]
    refine Int.ceil_le.mpr ?_
    push_cast
    have hWq : ((W : ℚ)) ≤ 0 := by exact_mod_cast hW
    have : (W : ℚ) * s ≤ 0 := mul_nonpos_of_nonpos_of_nonneg hWq hs.le
    rw [div_nonpos_iff]
    exact Or.inr ⟨this, hwq.le⟩
  · intro hH hs
    rw [calculateGridLayout_pagesY]
    refine Int.ceil_le.mpr ?_
    push_cast
    have hHq : ((H : ℚ)) ≤ 0 := by exact_mod_cast hH
    have : (H : ℚ) * s ≤ 0 := mul_nonpos_of_nonpos_of_nonneg hHq hs.le
    rw [div_nonpos_iff]
    exact Or.inr ⟨this, hhq.le⟩
  · intro hs hW
    rw [calculateGridLayout_pagesX]
    refine Int.ceil_le.mpr ?_
    push_cast
    have hWq : (0 : ℚ) ≤ (W : ℚ) := by exact_mod_cast hW
    have : (W : ℚ) * s ≤ 0 := mul_nonpos_of_nonneg_of_nonpos hWq hs
    rw [div_nonpos_iff]
    exact Or.inr ⟨this, hwq.le⟩

/-- Witness for C2 at W = 0, H = 100, s = 1: the calculator returns a
geometry with pagesX ≤ 0 rather than failing. -/
theorem grid_layout_no_validation_w :
    (0 : Int) ≤ 0 ∧ (0 : ℚ) < 1 ∧
    (calculateGridLayout 0 100 1 "a4").pagesX ≤ 0 :=
  ⟨by decide, by decide,
   (grid_layout_no_validation 0 100 1 "a4").1 (by decide) (by decide)⟩

/-! ## C4: grid layout formulas -/

/-- Claim C4: for positive image dimensions and scale, the Grid Layout
Calculator returns pagesX = ceil of W times s over paperWidth, pagesY =
ceil of H times s over paperHeight, totalPages = pagesX times pagesY,
together with the resolved paper dimensions, and both page counts are
at least 1; the result is a pure function of the four inputs. -/
theorem grid_layout_formula (W H : Int) (s : ℚ) (paper : String)
    (hW : 0 < W) (hH : 0 < H) (hs : 0 < s) :
    (calculateGridLayout W H s paper).pagesX =
      ⌈(W : ℚ) * s / ((resolvePaper paper).width : ℚ)⌉ ∧
    (calculateGridLayout W H s paper).pagesY =
      ⌈(H : ℚ) * s / ((resolvePaper paper).height : ℚ)⌉ ∧
    (calculateGridLayout W H s paper).totalPages =
      (calculateGridLayout W H s paper).pagesX *
        (calculateGridLayout W H s paper).pagesY ∧
    (calculateGridLayout W H s paper).pageSize = resolvePaper paper ∧
    1 ≤ (calculateGridLayout W H s paper).pagesX ∧
    1 ≤ (calculateGridLayout W H s paper).pagesY := by
  have hw : (0 : ℚ) < ((resolvePaper paper).width : ℚ) := by
    exact_mod_cast (resolvePaper_pos paper).1
  have hh : (0 : ℚ) < ((resolvePaper paper).height : ℚ) := by
    exact_mod_cast (resolvePaper_pos paper).2
  have hWq : (0 : ℚ) < (W : ℚ) := by exact_mod_cast hW
  have hHq : (0 : ℚ) < (H : ℚ) := by exact_mod_cast hH
  refine ⟨rfl, rfl, rfl, rfl, ?_, ?_⟩
  · rw [calculateGridLayout_pagesX]
    have : (0 : ℤ) < ⌈(W : ℚ) * s / ((resolvePaper paper).width : ℚ)⌉ :=
      Int.lt_ceil.mpr (by
        push_cast
        exact div_pos (mul_pos hWq hs) hw)
    omega
  · rw [calculateGridLayout_pagesY]
    have : (0 : ℤ) < ⌈(H : ℚ) * s / ((resolvePaper paper).height : ℚ)⌉ :=
      Int.lt_ceil.mpr (by
        push_cast
        exact div_pos (mul_pos hHq hs) hh)
    omega

/-- Witness for C4 at Scenario A of the spec: image 1600 x 1200 at
scale 1 on a4 gives a 3 x 2 grid. -/
theorem grid_layout_formula_w :
    (0 : Int) < 1600 ∧ (0 : Int) < 1200 ∧ (0 : ℚ) < 1 ∧
    (calculateGridLayout 1600 1200 1 "a4").pagesX = 3 ∧
    (calculateGridLayout 1600 1200 1 "a4").pagesY = 2 ∧
    (calculateGridLayout 1600 1200 1 "a4").totalPages = 6 ∧
    (1 ≤ (calculateGridLayout 1600 1200 1 "a4").pagesX ∧
      1 ≤ (calculateGridLayout 1600 1200 1 "a4").pagesY) := by
  have hx : (calculateGridLayout 1600 1200 1 "a4").pagesX = 3 := by
    rw [calculateGridLayout_pagesX]
    have : resolvePaper "a4" = ⟨595, 842, "A4"⟩ := by decide
    rw [this]
    push_cast
    rw [Int.ceil_eq_iff]
    norm_num
  have hy : (calculateGridLayout 1600 1200 1 "a4").pagesY = 2 := by
    rw [calculateGridLayout_pagesY]
    have : resolvePaper "a4" = ⟨595, 842, "A4"⟩ := by decide
    rw [this]
    push_cast
    rw [Int.ceil_eq_iff]
    norm_num
  refine ⟨by decide, by decide, by decide, hx, hy, ?_,
    (grid_layout_formula 1600 1200 1 "a4" (by decide) (by decide)
      (by decide)).2.2.2.2⟩
  rw [calculateGridLayout_totalPages, hx, hy]
  decide

/-! ## C10: the calibration route -/

/-- Claim C10: updating calibration on an existing project always
succeeds, sets status to calibrated whatever the previous status was,
stores the four calibration numbers, and leaves every other field of
the project unchanged. -/
theorem calibration_route_updates (st : ProjectStore) (pid : String)
    (p : MapProject) (s ox oy rot : ℚ) (hst : st pid = some p) :
    ∃ q : MapProject,
      (calibrationRoute st pid s ox oy rot).1 = some q ∧
      (calibrationRoute st pid s ox oy rot).2 pid = some q ∧
      q.status = "calibrated" ∧ q.scale = s ∧ q.offsetX = ox ∧
      q.offsetY = oy ∧ q.rotation = rot ∧ q.id = p.id ∧
      q.fileName = p.fileName ∧
      q.originalImageUrl = p.originalImageUrl ∧
      q.imageWidth = p.imageWidth ∧ q.imageHeight = p.imageHeight ∧
      q.settings = p.settings ∧ q.pdfUrl = p.pdfUrl ∧
      q.createdAt = p.createdAt := by
  unfold calibrationRoute updateMapProject
  rw [hst]
  exact ⟨_, rfl, by simp [setProject], rfl, rfl, rfl, rfl, rfl, rfl,
    rfl, rfl, rfl, rfl, rfl, rfl, rfl⟩

/-- Witness for C10: recalibrating demoProject, which is in status
processing and holds a pdf reference, still succeeds and only touches
the calibration fields and the status. -/
theorem calibration_route_updates_w :
    demoStore "p1" = some demoProject ∧
    demoProject.status = "processing" ∧
    ∃ q : MapProject,
      (calibrationRoute demoStore "p1" 2 3 4 90).1 = some q ∧
      (calibrationRoute demoStore "p1" 2 3 4 90).2 "p1" = some q ∧
      q.status = "calibrated" ∧ q.scale = 2 ∧ q.offsetX = 3 ∧
      q.offsetY = 4 ∧ q.rotation = 90 ∧ q.id = demoProject.id ∧
      q.fileName = demoProject.fileName ∧
      q.originalImageUrl = demoProject.originalImageUrl ∧
      q.imageWidth = demoProject.imageWidth ∧
      q.imageHeight = demoProject.imageHeight ∧
      q.settings = demoProject.settings ∧
      q.pdfUrl = demoProject.pdfUrl ∧
      q.createdAt = demoProject.createdAt :=
  ⟨by decide, by decide,
   calibration_route_updates demoStore "p1" demoProject 2 3 4 90
     (by decide)⟩

/-! ## C1: status after a failed generation -/

/-- Claim C1 counterexample: the single-item generate-pdf error handler
resets the status to calibrated, not uploaded, and leaves a previously
stored pdf reference in place rather than unset. -/
theorem single_failure_keeps_calibrated_cex :
    (generatePdfRoute calStore "p2" none).1 = GenerateOutcome.failure ∧
    (generatePdfRoute calStore "p2" none).2 "p2" = some calProject ∧
    calProject.status = "calibrated" ∧
    calProject.status ≠ "uploaded" ∧
    calProject.pdfUrl = some "uploads/pdf_old.pdf" := by
  refine ⟨?_, ?_, by decide, by decide, by decide⟩
  · decide
  · decide


theorem setProject_same (st : ProjectStore) (pid : String)
    (p : MapProject) : setProject st pid p pid = some p := by
  unfold setProject
  rw [if_pos rfl]

theorem updateMapProject_found (st : ProjectStore) (pid : String)
    (p : MapProject) (u : ProjectUpdates) (hst : st pid = some p) :
    updateMapProject st pid u =
      (some (applyUpdates p u), setProject st pid (applyUpdates p u)) := by
  unfold updateMapProject
  rw [hst]

/-- Claim C1 (amended): on an internal generation failure the
single-item route resets the project status to calibrated (not
uploaded) and does not modify the pdf reference, while the batch loop
sets each failed member to uploaded, also leaving the pdf reference
unmodified. -/
theorem failure_status_reset (st : ProjectStore) (pid : String)
    (p : MapProject) (gen : String → Option String)
    (hst : st pid = some p) (hcal : p.status = "calibrated")
    (hgen : gen pid = none) :
    ((generatePdfRoute st pid none).1 = GenerateOutcome.failure ∧
      (generatePdfRoute st pid none).2 pid =
        some { p with status := "calibrated" } ∧
      ({ p with status := "calibrated" } : MapProject).pdfUrl = p.pdfUrl) ∧
    ((processBatchLoop gen st [pid] 0 0).store pid =
        some { p with status := "uploaded" } ∧
      ({ p with status := "uploaded" } : MapProject).pdfUrl = p.pdfUrl ∧
      (processBatchLoop gen st [pid] 0 0).processedCount = 0 ∧
      (processBatchLoop gen st [pid] 0 0).failedCount = 1) := by
  have hroute : generatePdfRoute st pid none =
      (GenerateOutcome.failure,
        setProject
          (setProject st pid (applyUpdates p { status := some "processing" }))
          pid
          (applyUpdates (applyUpdates p { status := some "processing" })
            { status := some "calibrated" })) := by
    unfold generatePdfRoute
    rw [hst]
    dsimp only
    rw [if_neg (by simp [hcal])]
    rw [updateMapProject_found st pid p _ hst]
    rw [updateMapProject_found _ pid
      (applyUpdates p { status := some "processing" }) _
      (setProject_same st pid _)]
  have hloop : processBatchLoop gen st [pid] 0 0 =
      ⟨setProject
          (setProject st pid (applyUpdates p { status := some "processing" }))
          pid
          (applyUpdates (applyUpdates p { status := some "processing" })
            { status := some "uploaded" }),
        0, 1, [(0, 1)]⟩ := by
    unfold processBatchLoop
    rw [hst]
    dsimp only
    rw [hgen]
    dsimp only
    rw [updateMapProject_found st pid p _ hst]
    rw [updateMapProject_found _ pid
      (applyUpdates p { status := some "processing" }) _
      (setProject_same st pid _)]
    unfold processBatchLoop
    rfl
  refine ⟨⟨?_, ?_, rfl⟩, ?_, rfl, ?_, ?_⟩
  · rw [hroute]
  · rw [hroute]
    exact setProject_same _ pid _
  · rw [hloop]
    exact setProject_same _ pid _
  · rw [hloop]
  · rw [hloop]

/-- Witness for C1 at the concrete calibrated project calProject with a
failing generation. -/
theorem failure_status_reset_w :
    calStore "p2" = some calProject ∧
    calProject.status = "calibrated" ∧
    (((generatePdfRoute calStore "p2" none).1 = GenerateOutcome.failure ∧
      (generatePdfRoute calStore "p2" none).2 "p2" =
        some { calProject with status := "calibrated" } ∧
      ({ calProject with status := "calibrated" } : MapProject).pdfUrl =
        calProject.pdfUrl) ∧
    ((processBatchLoop (fun _ => none) calStore ["p2"] 0 0).store "p2" =
        some { calProject with status := "uploaded" } ∧
      ({ calProject with status := "uploaded" } : MapProject).pdfUrl =
        calProject.pdfUrl ∧
      (processBatchLoop (fun _ => none) calStore ["p2"] 0 0).processedCount
          = 0 ∧
      (processBatchLoop (fun _ => none) calStore ["p2"] 0 0).failedCount
          = 1)) :=
  ⟨by decide, by decide,
   failure_status_reset calStore "p2" calProject (fun _ => none)
     (by decide) (by decide) rfl⟩

/-! ## C6, C7: batch orchestration -/

theorem processBatchLoop_sum (gen : String → Option String)
    (ids : List String) :
    ∀ (st : ProjectStore) (p f : Nat),
      (processBatchLoop gen st ids p f).processedCount +
          (processBatchLoop gen st ids p f).failedCount =
        p + f + ids.length ∧
      ∀ e ∈ (processBatchLoop gen st ids p f).counterLog,
        e.1 + e.2 ≤ p + f + ids.length := by
  induction ids with
  | nil =>
      intro st p f
      refine ⟨by simp [processBatchLoop], ?_⟩
      intro e he
      simp [processBatchLoop] at he
  | cons pid rest ih =>
      intro st p f
      cases hst : st pid with
      | none =>
          unfold processBatchLoop
          rw [hst]
          dsimp only
          obtain ⟨h1, h2⟩ := ih st p (f + 1)
          constructor
          · simp only [List.length_cons]
            omega
          · intro e he
            have h3 := h2 e he
            simp only [List.length_cons]
            omega
      | some proj =>
          cases hgen : gen pid with
          | some path =>
              unfold processBatchLoop
              rw [hst]
              dsimp only
              rw [hgen]
              dsimp only
              obtain ⟨h1, h2⟩ :=
                ih ((updateMapProject
                      (updateMapProject st pid
                        { status := some "processing" }).2 pid
                      { pdfUrl := some (some path),
                        status := some "completed" }).2) (p + 1) f
              constructor
              · simp only [List.length_cons]
                omega
              · intro e he
                rcases List.mem_cons.mp he with h | h
                · subst h
                  simp only [List.length_cons]
                  omega
                · have h3 := h2 e h
                  simp only [List.length_cons]
                  omega
          | none =>
              unfold processBatchLoop
              rw [hst]
              dsimp only
              rw [hgen]
              dsimp only
              obtain ⟨h1, h2⟩ :=
                ih ((updateMapProject
                      (updateMapProject st pid
                        { status := some "processing" }).2 pid
                      { status := some "uploaded" }).2) p (f + 1)
              constructor
              · simp only [List.length_cons]
                omega
              · intro e he
                rcases List.mem_cons.mp he with h | h
                · subst h
                  simp only [List.length_cons]
                  omega
                · have h3 := h2 e h
                  simp only [List.length_cons]
                  omega

/-- Claim C7: for a batch job created by the batch route (totalFiles =
number of members), every counter pair persisted during the member
loop sums to at most totalFiles, the loop never aborts early so the
final counts sum to exactly totalFiles (every member lands in exactly
one of the two counters), and the terminal job keeps that equality
while holding a terminal status. -/
theorem batch_counter_invariant (gen : String → Option String)
    (st : ProjectStore) (name jobId now : String) (ids : List String) :
    (∀ e ∈ (runBatchJob gen st (createBatchJobRoute name ids jobId)
        now).1.counterLog,
      e.1 + e.2 ≤ (createBatchJobRoute name ids jobId).totalFiles) ∧
    (runBatchJob gen st (createBatchJobRoute name ids jobId)
          now).1.processedCount +
        (runBatchJob gen st (createBatchJobRoute name ids jobId)
          now).1.failedCount =
      (createBatchJobRoute name ids jobId).totalFiles ∧
    (runBatchJob gen st (createBatchJobRoute name ids jobId)
          now).2.processedFiles +
        (runBatchJob gen st (createBatchJobRoute name ids jobId)
          now).2.failedFiles =
      (runBatchJob gen st (createBatchJobRoute name ids jobId)
        now).2.totalFiles ∧
    ((runBatchJob gen st (createBatchJobRoute name ids jobId)
        now).2.status = "completed" ∨
      (runBatchJob gen st (createBatchJobRoute name ids jobId)
        now).2.status = "failed") := by
  obtain ⟨h1, h2⟩ := processBatchLoop_sum gen ids st 0 0
  refine ⟨?_, ?_, ?_, ?_⟩
  · intro e he
    have h3 := h2 e he
    simpa using h3
  · simpa using h1
  · show _ + _ = (createBatchJobRoute name ids jobId).totalFiles
    simpa using h1
  · show (if _ > 0 then "completed" else "failed") = "completed" ∨
      (if _ > 0 then "completed" else "failed") = "failed"
    split
    · exact Or.inl rfl
    · exact Or.inr rfl

/-- Witness for C7: a three-member batch in which every generation
fails still counts all three members and ends with counters summing to
totalFiles. -/
theorem batch_counter_invariant_w :
    (runBatchJob (fun _ => none) (fun _ => none)
          (createBatchJobRoute "B" ["a", "b", "c"] "j1")
          "t").2.processedFiles +
        (runBatchJob (fun _ => none) (fun _ => none)
          (createBatchJobRoute "B" ["a", "b", "c"] "j1")
          "t").2.failedFiles =
      (runBatchJob (fun _ => none) (fun _ => none)
        (createBatchJobRoute "B" ["a", "b", "c"] "j1") "t").2.totalFiles ∧
    (runBatchJob (fun _ => none) (fun _ => none)
      (createBatchJobRoute "B" ["a", "b", "c"] "j1") "t").2.totalFiles = 3 :=
  ⟨(batch_counter_invariant (fun _ => none) (fun _ => none) "B" "j1" "t"
      ["a", "b", "c"]).2.2.1, by decide⟩

/-- Claim C6: after the member loop completes, the terminal job update
sets status completed exactly when at least one member was processed
and failed otherwise, always records the completion timestamp, and
records the descriptive error message exactly when every member
failed (failedFiles = totalFiles). -/
theorem batch_terminal_state (gen : String → Option String)
    (st : ProjectStore) (name jobId now : String) (ids : List String) :
    (0 < (runBatchJob gen st (createBatchJobRoute name ids jobId)
        now).2.processedFiles →
      (runBatchJob gen st (createBatchJobRoute name ids jobId)
        now).2.status = "completed") ∧
    ((runBatchJob gen st (createBatchJobRoute name ids jobId)
        now).2.processedFiles = 0 →
      (runBatchJob gen st (createBatchJobRoute name ids jobId)
        now).2.status = "failed") ∧
    (runBatchJob gen st (createBatchJobRoute name ids jobId)
      now).2.completedAt = some now ∧
    ((runBatchJob gen st (createBatchJobRoute name ids jobId)
        now).2.errorMessage ≠ none ↔
      (runBatchJob gen st (createBatchJobRoute name ids jobId)
          now).2.failedFiles =
        (runBatchJob gen st (createBatchJobRoute name ids jobId)
          now).2.totalFiles) ∧
    ((runBatchJob gen st (createBatchJobRoute name ids jobId)
        now).2.errorMessage = none ∨
      (runBatchJob gen st (createBatchJobRoute name ids jobId)
        now).2.errorMessage = some "All files failed to process") := by
  unfold runBatchJob finishBatch
  dsimp only
  refine ⟨?_, ?_, rfl, ?_, ?_⟩
  · intro h
    rw [if_pos h]
  · intro h
    rw [if_neg (by omega)]
  · constructor
    · intro h
      by_contra hne
      rw [if_neg hne] at h
      exact h rfl
    · intro h
      rw [if_pos h]
      simp
  · split
    · exact Or.inr rfl
    · exact Or.inl rfl

/-- Witness for C6: the all-fail batch run of Scenario D ends failed
with the error message recorded and a completion timestamp. -/
theorem batch_terminal_state_w :
    (runBatchJob (fun _ => none) (fun _ => none)
        (createBatchJobRoute "B" ["a", "b", "c"] "j1")
        "t").2.processedFiles = 0 ∧
    (runBatchJob (fun _ => none) (fun _ => none)
      (createBatchJobRoute "B" ["a", "b", "c"] "j1") "t").2.status =
        "failed" ∧
    (runBatchJob (fun _ => none) (fun _ => none)
      (createBatchJobRoute "B" ["a", "b", "c"] "j1") "t").2.failedFiles =
        3 ∧
    (runBatchJob (fun _ => none) (fun _ => none)
      (createBatchJobRoute "B" ["a", "b", "c"] "j1") "t").2.errorMessage =
        some "All files failed to process" ∧
    (runBatchJob (fun _ => none) (fun _ => none)
      (createBatchJobRoute "B" ["a", "b", "c"] "j1") "t").2.completedAt =
        some "t" :=
  ⟨by decide,
   (batch_terminal_state (fun _ => none) (fun _ => none) "B" "j1" "t"
      ["a", "b", "c"]).2.1 (by decide),
   by decide, by decide, by decide⟩

/-! ## C8: document page counts -/

theorem tileCell_of_cond (pX pY y x : Nat) (b : Bool)
    (h : x < pX - 1 ∨ y < pY - 1) :
    tileCell pX pY b y x =
      PdfPage.mapPage x y ::
        (if b then [PdfPage.backsidePage (y * pX + x + 1)] else []) := by
  unfold tileCell
  by_cases hb : b
  · simp [hb, h]
  · simp [hb]

theorem flatMap_range_stats {α : Type} (f : Nat → List α) (pr : α → Bool)
    (c d n : Nat)
    (hl : ∀ i, i < n → (f i).length = c)
    (hc : ∀ i, i < n → List.countP pr (f i) = d) :
    ((List.range n).flatMap f).length = n * c ∧
      List.countP pr ((List.range n).flatMap f) = n * d := by
  induction n with
  | zero => simp
  | succ m ih =>
      obtain ⟨ih1, ih2⟩ :=
        ih (fun i hi => hl i (by omega)) (fun i hi => hc i (by omega))
      rw [List.range_succ, List.flatMap_append, List.length_append,
        List.countP_append, ih1, ih2]
      simp only [List.flatMap_cons, List.flatMap_nil, List.append_nil]
      rw [hl m (by omega), hc m (by omega), Nat.succ_mul, Nat.succ_mul]
      omega

theorem tileRow_stats_inner (pX pY : Nat) (b : Bool) (y : Nat)
    (hy : y < pY - 1) :
    (tileRow pX pY b y).length = pX * (1 + (if b then 1 else 0)) ∧
      List.countP isBacksidePage (tileRow pX pY b y) =
        pX * (if b then 1 else 0) := by
  unfold tileRow
  exact flatMap_range_stats _ _ _ _ pX
    (fun x hx => by
      rw [tileCell_of_cond pX pY y x b (Or.inr hy)]
      cases b <;> simp)
    (fun x hx => by
      rw [tileCell_of_cond pX pY y x b (Or.inr hy)]
      cases b <;> simp [isBacksidePage])

theorem tileCell_last (m pY : Nat) (b : Bool) :
    tileCell (m + 1) pY b (pY - 1) m = [PdfPage.mapPage m (pY - 1)] := by
  unfold tileCell
  rw [if_neg]
  rintro ⟨hb, h | h⟩ <;> omega

theorem tileRow_stats_last (pX pY : Nat) (b : Bool) (hpX : 1 ≤ pX) :
    (tileRow pX pY b (pY - 1)).length =
      pX + (pX - 1) * (if b then 1 else 0) ∧
      List.countP isBacksidePage (tileRow pX pY b (pY - 1)) =
        (pX - 1) * (if b then 1 else 0) := by
  obtain ⟨m, rfl⟩ : ∃ m, pX = m + 1 := ⟨pX - 1, by omega⟩
  unfold tileRow
  rw [List.range_succ, List.flatMap_append]
  have hstats := flatMap_range_stats (tileCell (m + 1) pY b (pY - 1))
    isBacksidePage (1 + (if b then 1 else 0)) (if b then 1 else 0) m
    (fun x hx => by
      rw [tileCell_of_cond _ _ _ _ _ (Or.inl (by omega))]
      cases b <;> simp)
    (fun x hx => by
      rw [tileCell_of_cond _ _ _ _ _ (Or.inl (by omega))]
      cases b <;> simp [isBacksidePage])
  rw [List.length_append, List.countP_append, hstats.1, hstats.2]
  simp only [List.flatMap_cons, List.flatMap_nil, List.append_nil,
    tileCell_last]
  cases b <;> (simp [isBacksidePage]; try omega)

theorem tilePages_stats (pX pY : Nat) (b : Bool) (hpX : 1 ≤ pX)
    (hpY : 1 ≤ pY) :
    (tilePages pX pY b).length =
      pX * pY + (if b then pX * pY - 1 else 0) ∧
      List.countP isBacksidePage (tilePages pX pY b) =
        (if b then pX * pY - 1 else 0) := by
  obtain ⟨n, rfl⟩ : ∃ n, pY = n + 1 := ⟨pY - 1, by omega⟩
  unfold tilePages
  rw [List.range_succ, List.flatMap_append]
  have hrows := flatMap_range_stats (tileRow pX (n + 1) b) isBacksidePage
    (pX * (1 + (if b then 1 else 0))) (pX * (if b then 1 else 0)) n
    (fun y hy => (tileRow_stats_inner pX (n + 1) b y (by omega)).1)
    (fun y hy => (tileRow_stats_inner pX (n + 1) b y (by omega)).2)
  have hlast := tileRow_stats_last pX (n + 1) b hpX
  simp only [Nat.add_sub_cancel] at hlast
  rw [List.length_append, List.countP_append, hrows.1, hrows.2]
  simp only [List.flatMap_cons, List.flatMap_nil, List.append_nil]
  rw [hlast.1, hlast.2]
  cases b
  · simp
    ring
  · simp
    have h1 : pX * (n + 1) = n * pX + pX := by ring
    have h2 : n * (pX * 2) = n * pX + n * pX := by ring
    rw [h1, h2]
    omega

theorem tilePages_split (pX pY : Nat) (b : Bool) (hpX : 1 ≤ pX)
    (hpY : 1 ≤ pY) :
    ∃ l, tilePages pX pY b = l ++ [PdfPage.mapPage (pX - 1) (pY - 1)] := by
  obtain ⟨n, rfl⟩ : ∃ n, pY = n + 1 := ⟨pY - 1, by omega⟩
  obtain ⟨m, rfl⟩ : ∃ m, pX = m + 1 := ⟨pX - 1, by omega⟩
  unfold tilePages
  rw [List.range_succ, List.flatMap_append]
  simp only [List.flatMap_cons, List.flatMap_nil, List.append_nil]
  unfold tileRow
  rw [List.range_succ, List.flatMap_append]
  simp only [List.flatMap_cons, List.flatMap_nil, List.append_nil,
    Nat.add_sub_cancel]
  have hcl : tileCell (m + 1) (n + 1) b n m = [PdfPage.mapPage m n] := by
    have hc := tileCell_last m (n + 1) b
    simpa using hc
  rw [hcl]
  exact ⟨_, (List.append_assoc _ _ _).symm⟩

/-- Claim C8: with backside numbering on, the assembled document holds
exactly totalPages - 1 backside pages and none follows the last map
page (the page after it is the assembly guide); with it off, none are
emitted; the total page count is totalPages plus the backside pages
plus one guide page, so a 1 x 1 grid yields exactly two pages. -/
theorem document_page_count (pX pY : Nat) (b : Bool) (hpX : 1 ≤ pX)
    (hpY : 1 ≤ pY) :
    List.countP isBacksidePage (assembleDocument pX pY b) =
      (if b then pX * pY - 1 else 0) ∧
    (assembleDocument pX pY b).length =
      pX * pY + (if b then pX * pY - 1 else 0) + 1 ∧
    ∃ l, assembleDocument pX pY b =
      l ++ [PdfPage.mapPage (pX - 1) (pY - 1),
            PdfPage.guidePage (guideCells pX pY)] := by
  obtain ⟨h1, h2⟩ := tilePages_stats pX pY b hpX hpY
  obtain ⟨l, hl⟩ := tilePages_split pX pY b hpX hpY
  unfold assembleDocument
  refine ⟨?_, ?_, ⟨l, ?_⟩⟩
  · rw [List.countP_append, h2]
    simp [isBacksidePage]
  · rw [List.length_append, h1]
    simp
  · rw [hl, List.append_assoc]
    rfl

/-- Witness for C8 at Scenario B (1 x 1 grid, backside numbering off):
two pages in total, zero backside pages; and at a 2 x 2 grid with
backside numbering on: 4 + 3 + 1 pages. -/
theorem document_page_count_w :
    (assembleDocument 1 1 false).length =
      1 * 1 + (if false then 1 * 1 - 1 else 0) + 1 ∧
    (assembleDocument 1 1 false).length = 2 ∧
    List.countP isBacksidePage (assembleDocument 1 1 false) = 0 ∧
    (assembleDocument 2 2 true).length = 8 ∧
    List.countP isBacksidePage (assembleDocument 2 2 true) = 3 :=
  ⟨(document_page_count 1 1 false (by decide) (by decide)).2.1,
   by decide, by decide, by decide, by decide⟩

/-! ## C9: page numbering -/

theorem row_map_eq_range (pX y : Nat) :
    (List.range pX).map (fun x => y * pX + x + 1) =
      List.range' (y * pX + 1) pX := by
  rw [List.range'_eq_map_range]
  apply List.map_congr_left
  intro x _
  omega

theorem guideCells_split (pX n : Nat) :
    guideCells pX (n + 1) =
      guideCells pX n ++
        (List.range pX).map (fun x => (x, n, n * pX + x + 1)) := by
  unfold guideCells
  rw [List.range_succ, List.flatMap_append]
  simp

theorem guideLabels_eq (pX pY : Nat) :
    (guideCells pX pY).map (fun c => c.2.2) = List.range' 1 (pX * pY) := by
  induction pY with
  | zero => simp [guideCells]
  | succ n ih =>
      rw [guideCells_split, List.map_append, ih, List.map_map]
      have hcomp : ((fun c : Nat × Nat × Nat => c.2.2) ∘
          fun x => (x, n, n * pX + x + 1)) = fun x => n * pX + x + 1 :=
        rfl
      rw [hcomp, row_map_eq_range]
      have hc : n * pX + 1 = 1 + 1 * (pX * n) := by ring
      rw [hc, List.range'_append]
      have hm : pX + pX * n = pX * (n + 1) := by ring
      rw [hm]

theorem filterMap_flatMap_range {α β : Type} (f : Nat → List α)
    (g : α → Option β) (h : Nat → List β) (n : Nat)
    (he : ∀ i, i < n → (f i).filterMap g = h i) :
    ((List.range n).flatMap f).filterMap g = (List.range n).flatMap h := by
  induction n with
  | zero => simp
  | succ m ih =>
      rw [List.range_succ, List.flatMap_append, List.filterMap_append,
        ih (fun i hi => he i (by omega)), List.flatMap_append]
      simp only [List.flatMap_cons, List.flatMap_nil, List.append_nil]
      rw [he m (by omega)]

theorem mapPageCoords_cell (pX pY y x : Nat) (b : Bool) :
    (tileCell pX pY b y x).filterMap pageCoordOf = [(x, y)] := by
  unfold tileCell
  split
  · rfl
  · rfl

theorem mapPageCoords_tiles (pX pY : Nat) (b : Bool) :
    mapPageCoords (tilePages pX pY b) = gridCoords pX pY := by
  unfold tilePages gridCoords mapPageCoords
  refine filterMap_flatMap_range _ _ _ pY (fun y hy => ?_)
  unfold tileRow
  refine filterMap_flatMap_range _ _ (fun x => [(x, y)]) pX
    (fun x hx => mapPageCoords_cell pX pY y x b) |>.trans ?_
  induction pX with
  | zero => simp
  | succ m ihm =>
      rw [List.range_succ, List.flatMap_append, List.map_append, ihm]
      simp

/-- Claim C9: every tile (x, y) gets page number y * pagesX + x + 1;
collected in the row-major loop order these numbers are exactly
1 .. pagesX * pagesY, each exactly once; the assembly guide holds
exactly pagesX * pagesY labeled cells produced by the same formula in
the same row-major arrangement, and the map pages of the assembled
document appear exactly at the row-major grid coordinates. -/
theorem page_numbering_canonical (pX pY : Nat) :
    (∀ x y : Nat, tilePageNumber pX x y = y * pX + x + 1) ∧
    (guideCells pX pY).map (fun c => c.2.2) = List.range' 1 (pX * pY) ∧
    ((guideCells pX pY).map (fun c => c.2.2)).Nodup ∧
    (guideCells pX pY).length = pX * pY ∧
    (∀ c ∈ guideCells pX pY, c.2.2 = c.2.1 * pX + c.1 + 1) ∧
    guideCells pX pY =
      (gridCoords pX pY).map (fun q => (q.1, q.2, q.2 * pX + q.1 + 1)) ∧
    ∀ b : Bool, mapPageCoords (assembleDocument pX pY b) =
      gridCoords pX pY := by
  have h6 : guideCells pX pY =
      (gridCoords pX pY).map (fun q => (q.1, q.2, q.2 * pX + q.1 + 1)) := by
    unfold guideCells gridCoords
    rw [List.map_flatMap]
    simp only [List.map_map]
    rfl
  refine ⟨fun x y => rfl, guideLabels_eq pX pY, ?_, ?_, ?_, h6, ?_⟩
  · rw [guideLabels_eq]
    exact List.nodup_range' 1 (pX * pY)
  · have hlen := congrArg List.length (guideLabels_eq pX pY)
    simpa using hlen
  · intro c hc
    rw [h6] at hc
    simp only [List.mem_map] at hc
    obtain ⟨q, hq, rfl⟩ := hc
    rfl
  · intro b
    unfold assembleDocument mapPageCoords
    rw [List.filterMap_append]
    have ht := mapPageCoords_tiles pX pY b
    unfold mapPageCoords at ht
    rw [ht]
    simp [pageCoordOf]

/-- Witness for C9 at a 3 x 2 grid: guide labels are exactly 1..6 in
row-major order and the map pages sit at the row-major coordinates. -/
theorem page_numbering_canonical_w :
    (guideCells 3 2).map (fun c => c.2.2) = List.range' 1 (3 * 2) ∧
    (guideCells 3 2).map (fun c => c.2.2) = [1, 2, 3, 4, 5, 6] ∧
    mapPageCoords (assembleDocument 3 2 true) = gridCoords 3 2 :=
  ⟨(page_numbering_canonical 3 2).2.1, by decide,
   (page_numbering_canonical 3 2).2.2.2.2.2.2 true⟩

/-! ## C3: tile crop containment and coverage -/

theorem crop_dim_bounds (L p : Int) (s : ℚ) (x : Int)
    (hp : 0 < p) (hs : 0 < s) (hx0 : 0 ≤ x)
    (hxlt : x < ⌈(L : ℚ) * s / (p : ℚ)⌉) :
    0 ≤ ⌊((x : ℚ) * (p : ℚ)) / s⌋ ∧
    0 ≤ ⌊min ((p : ℚ) / s) ((L : ℚ) - ((x : ℚ) * (p : ℚ)) / s)⌋ ∧
    ⌊((x : ℚ) * (p : ℚ)) / s⌋ +
        ⌊min ((p : ℚ) / s) ((L : ℚ) - ((x : ℚ) * (p : ℚ)) / s)⌋ ≤ L := by
  have hpq : (0 : ℚ) < (p : ℚ) := by exact_mod_cast hp
  have hxq : (0 : ℚ) ≤ (x : ℚ) := by exact_mod_cast hx0
  set a : ℚ := ((x : ℚ) * (p : ℚ)) / s with ha
  have ha0 : 0 ≤ a := div_nonneg (mul_nonneg hxq hpq.le) hs.le
  have haL : a < (L : ℚ) := by
    have h1 : ((x : Int) : ℚ) < (L : ℚ) * s / (p : ℚ) := Int.lt_ceil.mp hxlt
    rw [ha, div_lt_iff₀ hs]
    have h2 := mul_lt_mul_of_pos_right h1 hpq
    rw [div_mul_cancel₀ _ (ne_of_gt hpq)] at h2
    calc (x : ℚ) * (p : ℚ) < (L : ℚ) * s := h2
    _ = (L : ℚ) * s := rfl
  refine ⟨Int.floor_nonneg.mpr ha0, ?_, ?_⟩
  · apply Int.floor_nonneg.mpr
    apply le_min
    · exact (div_pos hpq hs).le
    · linarith
  · have h1 : (⌊a⌋ : ℚ) ≤ a := Int.floor_le a
    have h2 : (⌊min ((p : ℚ) / s) ((L : ℚ) - a)⌋ : ℚ) ≤ (L : ℚ) - a :=
      le_trans (Int.floor_le _) (min_le_right _ _)
    have h3 : ((⌊a⌋ + ⌊min ((p : ℚ) / s) ((L : ℚ) - a)⌋ : Int) : ℚ) ≤
        (L : ℚ) := by
      push_cast
      linarith
    exact_mod_cast h3

theorem crop_dim_cover (L p k : Int) (s : ℚ) (c : Int)
    (hp : 0 < p) (hs : 0 < s)
    (hk : (p : ℚ) / s = (k : ℚ)) (hc0 : 0 ≤ c) (hcL : c < L) :
    ∃ x : Int, 0 ≤ x ∧ x < ⌈(L : ℚ) * s / (p : ℚ)⌉ ∧
      ⌊((x : ℚ) * (p : ℚ)) / s⌋ ≤ c ∧
      c < ⌊((x : ℚ) * (p : ℚ)) / s⌋ +
          ⌊min ((p : ℚ) / s) ((L : ℚ) - ((x : ℚ) * (p : ℚ)) / s)⌋ := by
  have hpq : (0 : ℚ) < (p : ℚ) := by exact_mod_cast hp
  have hkq : (0 : ℚ) < (k : ℚ) := by
    rw [← hk]
    exact div_pos hpq hs
  have hk0 : 0 < k := by exact_mod_cast hkq
  have hp' : (p : ℚ) = (k : ℚ) * s := by
    rw [div_eq_iff (ne_of_gt hs)] at hk
    exact hk
  have hdm := Int.ediv_add_emod c k
  have hr0 : 0 ≤ c % k := Int.emod_nonneg c (by omega)
  have hrk : c % k < k := Int.emod_lt_of_pos c hk0
  have hlow : (c / k) * k ≤ c := by
    rw [mul_comm]
    omega
  have hhigh : c < (c / k) * k + k := by
    rw [mul_comm]
    omega
  have hceil : (L : ℚ) * s / (p : ℚ) = (L : ℚ) / (k : ℚ) := by
    rw [hp']
    rw [mul_comm (k : ℚ) s, ← div_div, mul_div_assoc,
      div_self (ne_of_gt hs), mul_one]
  have hxlt : c / k < ⌈(L : ℚ) * s / (p : ℚ)⌉ := by
    rw [hceil]
    have hWle : (L : ℚ) / (k : ℚ) ≤ ((⌈(L : ℚ) / (k : ℚ)⌉ : Int) : ℚ) :=
      Int.le_ceil _
    rw [div_le_iff₀ hkq] at hWle
    have hL3 : L ≤ ⌈(L : ℚ) / (k : ℚ)⌉ * k := by exact_mod_cast hWle
    have hmul : (c / k) * k < ⌈(L : ℚ) / (k : ℚ)⌉ * k := by omega
    exact Int.lt_of_mul_lt_mul_right hmul hk0.le
  have hxp : ((c / k : Int) : ℚ) * (p : ℚ) / s = (((c / k) * k : Int) : ℚ) := by
    rw [hp']
    push_cast
    field_simp
    ring
  have hfloor1 : ⌊((c / k : Int) : ℚ) * (p : ℚ) / s⌋ = (c / k) * k := by
    rw [hxp, Int.floor_intCast]
  have hwidth : min ((p : ℚ) / s)
      ((L : ℚ) - ((c / k : Int) : ℚ) * (p : ℚ) / s) =
      ((min k (L - (c / k) * k) : Int) : ℚ) := by
    rw [hk, hxp]
    push_cast
    rfl
  have hfloor2 : ⌊min ((p : ℚ) / s)
      ((L : ℚ) - ((c / k : Int) : ℚ) * (p : ℚ) / s)⌋ =
      min k (L - (c / k) * k) := by
    rw [hwidth, Int.floor_intCast]
  refine ⟨c / k, Int.ediv_nonneg hc0 hk0.le, hxlt, ?_, ?_⟩
  · rw [hfloor1]
    exact hlow
  · rw [hfloor1, hfloor2]
    rcases le_total k (L - (c / k) * k) with h | h
    · rw [min_eq_left h]
      omega
    · rw [min_eq_right h]
      omega

/-- Claim C3 (amended): every floored tile rectangle lies fully inside
the image bounds with all four crop values floored, and the client
tile extractor agrees with the server crop computation; the floored
rectangles exactly cover every pixel of the image whenever
paperWidth / s and paperHeight / s are integers (in particular at
s = 1), but not in general: after flooring, up to a pixel can be
missed at tile boundaries when the tile span in source pixels is not
integral. -/
theorem tile_cover (W H : Int) (s : ℚ) (paper : String)
    (_hW : 0 < W) (_hH : 0 < H) (hs : 0 < s) :
    cropContainment W H s paper ∧
    cropAgreement W H s paper ∧
    ∀ kx ky : Int,
      ((resolvePaper paper).width : ℚ) / s = (kx : ℚ) →
      ((resolvePaper paper).height : ℚ) / s = (ky : ℚ) →
      cropCoverage W H s paper := by
  have hw := (resolvePaper_pos paper).1
  have hh := (resolvePaper_pos paper).2
  refine ⟨?_, ?_, ?_⟩
  · intro x y hx0 hx hy0 hy
    rw [calculateGridLayout_pagesX] at hx
    rw [calculateGridLayout_pagesY] at hy
    have bw := crop_dim_bounds W (resolvePaper paper).width s x hw hs hx0 hx
    have bh := crop_dim_bounds H (resolvePaper paper).height s y hh hs hy0 hy
    exact ⟨bw.1, bh.1, bw.2.1, bh.2.1, bw.2.2, bh.2.2⟩
  · intro idx
    rfl
  · intro kx ky hkx hky px py hpx0 hpx hpy0 hpy
    obtain ⟨x, hx0, hxlt, hxl, hxr⟩ :=
      crop_dim_cover W (resolvePaper paper).width kx s px hw hs hkx hpx0 hpx
    obtain ⟨y, hy0, hylt, hyl, hyr⟩ :=
      crop_dim_cover H (resolvePaper paper).height ky s py hh hs hky hpy0 hpy
    refine ⟨x, y, hx0, ?_, hy0, ?_, hxl, hxr, hyl, hyr⟩
    · rw [calculateGridLayout_pagesX]
      exact hxlt
    · rw [calculateGridLayout_pagesY]
      exact hylt

theorem grid_595x842_s2 :
    calculateGridLayout 595 842 2 "a4" =
      { pagesX := 2, pagesY := 2, totalPages := 4,
        pageSize := ⟨595, 842, "A4"⟩,
        scaledWidth := 1190, scaledHeight := 1684 } := by
  have ha4 : resolvePaper "a4" = ⟨595, 842, "A4"⟩ := by decide
  have hx : (calculateGridLayout 595 842 2 "a4").pagesX = 2 := by
    rw [calculateGridLayout_pagesX, ha4]
    push_cast
    rw [Int.ceil_eq_iff]
    norm_num
  have hy : (calculateGridLayout 595 842 2 "a4").pagesY = 2 := by
    rw [calculateGridLayout_pagesY, ha4]
    push_cast
    rw [Int.ceil_eq_iff]
    norm_num
  have ht := calculateGridLayout_totalPages 595 842 2 "a4"
  have hp := calculateGridLayout_pageSize 595 842 2 "a4"
  have h5 : (calculateGridLayout 595 842 2 "a4").scaledWidth = 1190 := by
    show ((595 : Int) : ℚ) * 2 = 1190
    norm_num
  have h6 : (calculateGridLayout 595 842 2 "a4").scaledHeight = 1684 := by
    show ((842 : Int) : ℚ) * 2 = 1684
    norm_num
  cases hg : calculateGridLayout 595 842 2 "a4"
  simp_all

theorem cropRect_s2_00 :
    cropRect 0 0 595 842 2 595 842 =
      { left := 0, top := 0, width := 297, height := 421 } := by
  unfold cropRect
  rw [CropArea.mk.injEq]
  refine ⟨?_, ?_, ?_, ?_⟩ <;> push_cast <;> norm_num [min_def]

theorem cropRect_s2_10 :
    cropRect 1 0 595 842 2 595 842 =
      { left := 297, top := 0, width := 297, height := 421 } := by
  unfold cropRect
  rw [CropArea.mk.injEq]
  refine ⟨?_, ?_, ?_, ?_⟩ <;> push_cast <;> norm_num [min_def]

theorem cropRect_s2_01 :
    cropRect 0 1 595 842 2 595 842 =
      { left := 0, top := 421, width := 297, height := 421 } := by
  unfold cropRect
  rw [CropArea.mk.injEq]
  refine ⟨?_, ?_, ?_, ?_⟩ <;> push_cast <;> norm_num [min_def]

theorem cropRect_s2_11 :
    cropRect 1 1 595 842 2 595 842 =
      { left := 297, top := 421, width := 297, height := 421 } := by
  unfold cropRect
  rw [CropArea.mk.injEq]
  refine ⟨?_, ?_, ?_, ?_⟩ <;> push_cast <;> norm_num [min_def]

/-- Claim C3 counterexample: at image 595 x 842, scale 2, paper a4 the
grid is 2 x 2, the floored tiles cover source columns 0..296 and
297..593 only, and pixel (594, 0), though inside the image, lies in no
tile: the floored rectangles do not cover the image. -/
theorem tile_cover_cex :
    (calculateGridLayout 595 842 2 "a4").pagesX = 2 ∧
    (calculateGridLayout 595 842 2 "a4").pagesY = 2 ∧
    cropRect 0 0 595 842 2 595 842 =
      { left := 0, top := 0, width := 297, height := 421 } ∧
    cropRect 1 0 595 842 2 595 842 =
      { left := 297, top := 0, width := 297, height := 421 } ∧
    coveredPixel 595 842 2 "a4" 594 0 = false ∧
    (0 : Int) ≤ 594 ∧ (594 : Int) < 595 ∧
    (0 : Int) ≤ 0 ∧ (0 : Int) < 842 := by
  have hg := grid_595x842_s2
  refine ⟨by rw [hg], by rw [hg], cropRect_s2_00, cropRect_s2_10, ?_,
    by decide, by decide, by decide, by decide⟩
  unfold coveredPixel
  rw [hg]
  dsimp only
  rw [show List.range (Int.toNat 2) = [0, 1] from by decide]
  simp only [List.any_cons, List.any_nil, Nat.cast_zero, Nat.cast_one]
  rw [cropRect_s2_00, cropRect_s2_10, cropRect_s2_01, cropRect_s2_11]
  decide

/-- Witness for C3 at image 595 x 842, scale 1, paper a4 (the tile
spans 595 and 842 are integral, so full pixel coverage holds). -/
theorem tile_cover_w :
    (0 : Int) < 595 ∧ (0 : Int) < 842 ∧ (0 : ℚ) < 1 ∧
    cropContainment 595 842 1 "a4" ∧ cropAgreement 595 842 1 "a4" ∧
    cropCoverage 595 842 1 "a4" := by
  have ha4 : resolvePaper "a4" = ⟨595, 842, "A4"⟩ := by decide
  have h := tile_cover 595 842 1 "a4" (by decide) (by decide) (by decide)
  refine ⟨by decide, by decide, by decide, h.1, h.2.1, ?_⟩
  refine h.2.2 595 842 ?_ ?_
  · rw [ha4]
    norm_num
  · rw [ha4]
    norm_num
